import Mathlib

/-!
# The Leaflet tutorial map script (`script.js`)

A shallow embedding of the script: the map it builds at load time, the two
event handlers it registers (the Bastille marker's click handler and the
`zoom` handler `handleZoom`) and the promise chain that loads the cycle-path
GeoJSON file.

The script is glue over the Leaflet library and the browser's `fetch`.  Their
calls are modelled by their documented effect on an explicit map state:

* numbers (zoom levels, coordinates) are rationals, so `14.01` and the
  comparison `map.getZoom() > 14` are exact;
* a Leaflet layer owns one tooltip slot (`_tooltip`): `bindTooltip` fills it,
  after unbinding a tooltip that is open, and opens a permanent tooltip at
  once when the layer is on the map; `unbindTooltip` closes the tooltip and
  empties the slot; the tooltips that are open are counted;
* a promise is the result it settles to together with the state left by the
  callbacks that ran; `fetch` rejects only on a network failure, whatever the
  HTTP status of a response it did receive.
* `setView` works in screen pixels at an unchanged zoom level (it pans the map
  by a whole number of pixels); the projection to pixels and the size of the
  map on screen are given by a `Viewport`.

The string `distance` is computed at load time with floating-point
trigonometry (`distanceTo`) and `toFixed(2)`; it is a parameter of the model.
-/

namespace Script

/-! ## Data model -/

/-- A coordinate `[lat, lng]`. -/
abbrev LatLng := ℚ × ℚ

/-- The reason a promise is rejected with, or a thrown exception. -/
abbrev JSError := String

/-- The options object given to `L.icon`. -/
structure Icon where
  iconUrl : String
  iconSize : Nat × Nat
  iconAnchor : Int × Int
  popupAnchor : Int × Int
deriving DecidableEq, Repr

/-- A tooltip: its content and the two options the script sets. -/
structure Tooltip where
  content : String
  permanent : Bool
  direction : String
deriving DecidableEq, Repr

/-- The value `response.json()` resolves to.  The script hands it to
`L.geoJSON` without looking inside, so only the document and the one fact the
control flow depends on are kept: whether Leaflet builds a layer from it
(`renderable`) or throws `Invalid GeoJSON object.` -/
structure Data where
  text : String
  renderable : Bool
deriving DecidableEq, Repr

/-- The layers the script creates. -/
inductive Layer
  | tileLayer (url : String)
  | marker (latlng : LatLng) (icon : Icon) (popup : Option String)
  | polygon (latlngs : List LatLng) (color : String) (popup : Option String)
  | polyline (latlngs : List LatLng) (color : String) (weight : Nat)
  | geoJSON (data : Data)
deriving DecidableEq, Repr

/-- The controls the script adds to the map. -/
inductive Control
  | layers (baseLayers : List (String × Layer))
  | geocoder
  | scale
  | legend (position : String)
deriving DecidableEq, Repr

/-- The state of the page: the view, the layers and controls on the map, the
tooltip slot of the cable-car line, the number of tooltips open on the map,
and what was written with `console.error`. -/
structure MapState where
  center : LatLng
  zoom : ℚ
  layers : List Layer
  controls : List Control
  lineTooltip : Option Tooltip
  tooltipPane : Nat
  console : List String
deriving DecidableEq, Repr

/-! ## Load-time constants (lines 1 to 83) -/

def osm_url : String := "https://{s}.tile.openstreetmap.org/{z}/{x}/{y}.png"

def esri_url : String :=
  "https://server.arcgisonline.com/ArcGIS/rest/services/World_Imagery/MapServer/tile/{z}/{y}/{x}"

def streets : Layer := .tileLayer osm_url

def satellite : Layer := .tileLayer esri_url

def grenobleGPS : LatLng := (45.1885, 5.7245)

/-- The map as `L.map` creates it: centred on Grenoble, zoom 13, streets on. -/
def map : MapState :=
  { center := grenobleGPS, zoom := 13, layers := [streets], controls := [],
    lineTooltip := none, tooltipPane := 0, console := [] }

def baseMaps : List (String × Layer) :=
  [("Streets (OSM)", streets), ("Satellite (Esri)", satellite)]

def chooseMaps : Control := .layers baseMaps

def castleIcon : Icon :=
  { iconUrl := "https://cdn-icons-png.flaticon.com/512/6161/6161670.png",
    iconSize := (32, 32), iconAnchor := (16, 32), popupAnchor := (0, -32) }

def bastilleGPS : LatLng := (45.198601, 5.724592)

def bastilleMarker : Layer := .marker bastilleGPS castleIcon (some "The Bastille of Grenoble")

def jdvPerimeter : List LatLng :=
  [(45.192890, 5.725622), (45.193016, 5.727075), (45.191364, 5.727556), (45.191428, 5.725975)]

def jdv : Layer := .polygon jdvPerimeter "green" (some "Jardin de ville")

def cableCar : LatLng := (45.19295, 5.726035)

def line : Layer := .polyline [bastilleGPS, cableCar] "red" 3

def grenobleCyclePaths : String :=
  "https://data.mobilites-m.fr/api/lines/json?types=chronovelo,tempovelo,voieverte,veloamenage,velononamenage,velodifficile&epci=LaMetro"

def search : Control := .geocoder

def scale : Control := .scale

def legend : Control := .legend "bottomright"

/-! ## Leaflet calls -/

/-- The call `layer.addTo(map)` on a layer that was just constructed. -/
def addTo (l : Layer) (s : MapState) : MapState :=
  { s with layers := s.layers ++ [l] }

/-- The call `control.addTo(map)`. -/
def addControl (c : Control) (s : MapState) : MapState :=
  { s with controls := s.controls ++ [c] }

/-- The call `map.hasLayer(l)`. -/
def hasLayer (s : MapState) (l : Layer) : Bool := decide (l ∈ s.layers)

/-- The call `map.removeLayer(l)`. -/
def removeLayer (l : Layer) (s : MapState) : MapState :=
  { s with layers := s.layers.filter (fun x => decide (x ≠ l)) }

/-- The call `map.addLayer(l)` on an existing layer object: nothing happens
when the layer is on the map already. -/
def addLayer (l : Layer) (s : MapState) : MapState :=
  if hasLayer s l then s else { s with layers := s.layers ++ [l] }

/-- The call `map.getZoom()`. -/
def getZoom (s : MapState) : ℚ := s.zoom

/-- The call `line.isTooltipOpen()`, the line's label is on screen: a
permanent tooltip is bound to the line and the line is on the map (Leaflet
keeps a permanent tooltip open as long as its layer is on the map; the script
binds no other kind). -/
def labelVisible (s : MapState) : Bool :=
  (match s.lineTooltip with
   | some t => t.permanent
   | none => false) && hasLayer s line

/-- The call `line.unbindTooltip()`: a bound tooltip is closed, which takes it
off the map when it is open, and the slot is emptied. -/
def unbindTooltip (s : MapState) : MapState :=
  match s.lineTooltip with
  | some _ =>
    { s with lineTooltip := none,
             tooltipPane := if labelVisible s then s.tooltipPane - 1 else s.tooltipPane }
  | none => s

/-- The call `line.bindTooltip(content, options)`: a tooltip that is bound and
open is unbound first; the new tooltip takes the slot and, being permanent on a
layer of the map, is opened. -/
def bindTooltip (t : Tooltip) (s : MapState) : MapState :=
  let s1 := if labelVisible s then unbindTooltip s else s
  if t.permanent && hasLayer s1 line then
    { s1 with lineTooltip := some t, tooltipPane := s1.tooltipPane + 1 }
  else
    { s1 with lineTooltip := some t }

/-- The state once the top-level statements of the script have run: the
controls and the three static overlays are on the map, no tooltip is bound
(line 85 is commented out) and the fetch of line 105 is pending. -/
def initial : MapState :=
  addControl legend (addControl scale (addControl search
    (addTo line (addTo jdv (addTo bastilleMarker (addControl chooseMaps map))))))

/-! ## The zoom handler (lines 88 to 99) -/

/-- The function `handleZoom`. -/
def handleZoom (distance : String) (s : MapState) : MapState :=
  if getZoom s > 14 then
    bindTooltip
      { content := "Distance : " ++ distance ++ " m", permanent := true, direction := "center" } s
  else
    unbindTooltip s

/-- A zoom interaction that ends at level `z`: Leaflet stores the level and
fires `zoom`, whose only listener is `handleZoom` (line 99). -/
def zoomTo (distance : String) (z : ℚ) (s : MapState) : MapState :=
  handleZoom distance { s with zoom := z }

/-- The tooltips open on the map are the line's label when it is on screen,
and no other. -/
def paneConsistent (s : MapState) : Prop :=
  s.tooltipPane = if labelVisible s then 1 else 0

instance (s : MapState) : Decidable (paneConsistent s) := by
  unfold paneConsistent
  infer_instance

/-- The tooltips the line carries. -/
def lineTooltips (s : MapState) : List Tooltip := s.lineTooltip.toList

/-- A sequence of zoom interactions, each followed by the handler. -/
def zoomSeq (distance : String) (zs : List ℚ) (s : MapState) : MapState :=
  zs.foldl (fun st z => zoomTo distance z st) s

/-! ## The marker's click handler (lines 56 to 59) -/

/-- A point in projected pixel coordinates. -/
abbrev Point := ℚ × ℚ

/-- What `setView` depends on beyond the map state: the size of the map on
screen; the projection of the map's CRS at a zoom level (`map.project` and
`map.unproject`, the spherical Mercator formulas evaluated in doubles);
whether a zoom animation is running when the call is made; whether the map
pane is off its origin, by whole pixels, as it is once the map was dragged or
panned since the view was last reset; and whether Leaflet animates a change
of level from this view (the browser supports it, the change is of at most
four levels and its origin is within one screen) instead of resetting the
view. -/
structure Viewport where
  size : Nat × Nat
  project : LatLng → ℚ → Point
  unproject : Point → ℚ → LatLng
  animatingZoom : Bool
  paneMoved : Bool
  zoomAnimation : Bool

/-- The function `Math.round`: the nearest integer, halves upwards. -/
def mathRound (x : ℚ) : ℚ := ((⌊x + 1 / 2⌋ : ℤ) : ℚ)

/-- The function `Math.trunc`: the integer part. -/
def mathTrunc (x : ℚ) : ℚ := if 0 ≤ x then ((⌊x⌋ : ℤ) : ℚ) else ((⌈x⌉ : ℤ) : ℚ)

/-- The projected pixel at the middle of a map that shows `latlng` at level
`zoom`: the pixel origin, which Leaflet keeps whole, plus half the size of
the map. -/
def pixelCenter (v : Viewport) (latlng : LatLng) (zoom : ℚ) : Point :=
  (mathRound ((v.project latlng zoom).1 - (v.size.1 : ℚ) / 2) + (v.size.1 : ℚ) / 2,
   mathRound ((v.project latlng zoom).2 - (v.size.2 : ℚ) / 2) + (v.size.2 : ℚ) / 2)

/-- The projected pixel at the middle of the map. -/
def centerPoint (v : Viewport) (s : MapState) : Point :=
  pixelCenter v s.center s.zoom

/-- The offset `_tryAnimatedPan` computes: from the middle of the map to the
whole pixel the requested centre projects to, truncated. -/
def panOffset (v : Viewport) (center : LatLng) (s : MapState) : Point :=
  (mathTrunc (mathRound (v.project center s.zoom).1 - (centerPoint v s).1),
   mathTrunc (mathRound (v.project center s.zoom).2 - (centerPoint v s).2))

/-- The call `map.panBy(offset)`: nothing moves for a zero offset; otherwise
the map is moved by that many pixels and its centre is read back from the
pixel now in the middle. -/
def panBy (v : Viewport) (offset : Point) (s : MapState) : MapState :=
  if offset.1 = 0 ∧ offset.2 = 0 then s
  else
    { s with
      center :=
        v.unproject ((centerPoint v s).1 + offset.1, (centerPoint v s).2 + offset.2) s.zoom }

/-- Leaflet's `_tryAnimatedPan`, the path `setView` takes at an unchanged
level: the map is panned by the offset when that is within one screen;
`none` when it is further away. -/
def tryAnimatedPan (v : Viewport) (center : LatLng) (s : MapState) : Option MapState :=
  if |(panOffset v center s).1| ≤ (v.size.1 : ℚ) ∧ |(panOffset v center s).2| ≤ (v.size.2 : ℚ) then
    some (panBy v (panOffset v center s) s)
  else none

/-- The call `map.setView(center, zoom)` (the level 16 the script asks for is
within the zoom range of both tile layers, so it is not clamped).  At an
unchanged level the map is panned by whole pixels when the target is within
one screen, and the view is reset to the exact centre when it is not.  At a
new level the call is dropped while a zoom animation is running; otherwise
the view ends at the given level, `zoom` is fired, and with it `handleZoom`.
The centre is then the given one when the view is reset, and when the change
is animated on a map pane at its origin (`getCenter` returns the centre it
was given); when the change is animated on a map pane that was moved,
`getCenter` reads the centre back from the pixel in the middle of the map. -/
def setView (v : Viewport) (distance : String) (center : LatLng) (zoom : ℚ) (s : MapState) :
    MapState :=
  if s.zoom = zoom then
    match tryAnimatedPan v center s with
    | some s1 => s1
    | none => { s with center := center, zoom := zoom }
  else if v.animatingZoom then s
  else if v.zoomAnimation && v.paneMoved then
    handleZoom distance
      { s with center := v.unproject (pixelCenter v center zoom) zoom, zoom := zoom }
  else handleZoom distance { s with center := center, zoom := zoom }

/-- The listener the script registers on the Bastille marker's `click`. -/
def bastilleMarkerClick (v : Viewport) (distance : String) (s : MapState) : MapState :=
  setView v distance bastilleGPS 16 s

/-- A map of 800 by 600 pixels that was dragged, in a browser that animates
zooms, with no zoom animation running.  The longitude
axis of the projection is Leaflet's (linear in the longitude); the latitude
axis is the Mercator formula replaced by its tangent at the latitude of the
Bastille, which is within a thousandth of a pixel of it over the few hundred
metres the examples span.  The scale is that of whole zoom levels. -/
def bastilleViewport : Viewport :=
  { size := (800, 600),
    project := fun p z =>
      (256 * 2 ^ ⌊z⌋.toNat * (p.2 / 360 + 1 / 2),
       256 * 2 ^ ⌊z⌋.toNat *
         (0.35894350165979183 - 0.003942058787953571 * (p.1 - 45.198601))),
    unproject := fun pt z =>
      (45.198601 - (pt.2 / (256 * 2 ^ ⌊z⌋.toNat) - 0.35894350165979183) / 0.003942058787953571,
       (pt.1 / (256 * 2 ^ ⌊z⌋.toNat) - 1 / 2) * 360),
    animatingZoom := false,
    paneMoved := true,
    zoomAnimation := true }

/-- The map at level 16 after the user dragged it a little to the north-east of
the Bastille. -/
def draggedAt16 (distance : String) : MapState :=
  { zoomTo distance 16 initial with center := (45.199, 5.725) }

/-! ## The layers control (lines 23 to 29) -/

/-- The radio inputs of the layers control, one per entry of `baseMaps`. -/
inductive BaseInput
  | streetsOSM
  | satelliteEsri
deriving DecidableEq, Repr

/-- The layer an input of the control stands for. -/
def BaseInput.layer : BaseInput → Layer
  | .streetsOSM => streets
  | .satelliteEsri => satellite

/-- Leaflet's handler of a click on a radio input of the layers control: the
layers of the unchecked inputs are removed from the map when they are on it,
then the layer of the checked input is added when it is not. -/
def onInputClick (checked : BaseInput) (s : MapState) : MapState :=
  let unchecked := (baseMaps.map Prod.snd).filter (fun l => decide (l ≠ checked.layer))
  addLayer checked.layer
    (unchecked.foldl (fun st l => if hasLayer st l then removeLayer l st else st) s)

/-- The layer of the other input of the control. -/
def BaseInput.otherLayer : BaseInput → Layer
  | .streetsOSM => satellite
  | .satelliteEsri => streets

/-- The base layers that are on the map. -/
def activeBaseLayers (s : MapState) : List Layer :=
  s.layers.filter (fun l => decide (l ∈ baseMaps.map Prod.snd))

/-! ## The remote overlay loader (lines 105 to 110) -/

/-- A response `fetch` resolved with: its HTTP status and what
`response.json()` settles to (rejected when the body is not JSON). -/
structure Response where
  status : Nat
  json : Except JSError Data

/-- The network: what `fetch(url)` settles to.  It is rejected only when no
response was received; a response with an error status resolves it. -/
abbrev Network := String → Except JSError Response

/-- A promise whose callbacks act on the map: given the state at the time it
settles, the result and the state after. -/
def Promise (α : Type) : Type := MapState → Except JSError α × MapState

/-- A promise whose callbacks have no effect on the map. -/
def Promise.settled {α : Type} (r : Except JSError α) : Promise α :=
  fun s => (r, s)

/-- The method `.then(f)`: `f` runs when the promise is fulfilled; a rejection is
passed on, and so is what `f` throws. -/
def Promise.then_ {α β : Type} (p : Promise α) (f : α → Promise β) : Promise β :=
  fun s =>
    match p s with
    | (.ok a, s1) => f a s1
    | (.error e, s1) => (.error e, s1)

/-- The method `.catch(h)` at the end of a chain: `h` runs when the promise is
rejected. -/
def Promise.catch_ {α : Type} (p : Promise α) (h : JSError → MapState → MapState) :
    MapState → MapState :=
  fun s =>
    match p s with
    | (.ok _, s1) => s1
    | (.error e, s1) => h e s1

/-- The call `fetch(url)`. -/
def fetch (net : Network) (url : String) : Promise Response :=
  Promise.settled (net url)

/-- The call `L.geoJSON(data)`: the layer built from the document, or the
exception Leaflet throws on a document it cannot render (it dispatches on the
`type` of the document and of its features and geometries, and throws
`Error("Invalid GeoJSON object.")` on one that is no GeoJSON type). -/
def geoJSON (data : Data) : Except JSError Layer :=
  if data.renderable then .ok (.geoJSON data) else .error "Error: Invalid GeoJSON object."

/-- The call `console.error(message, error)`. -/
def consoleError (message : String) (error : JSError) (s : MapState) : MapState :=
  { s with console := s.console ++ [message ++ " " ++ error] }

/-- The chain of line 105 to 109, before its `.catch`. -/
def loadChain (net : Network) : Promise Unit :=
  ((fetch net grenobleCyclePaths).then_
      (fun response => Promise.settled response.json)).then_
    (fun data s =>
      match geoJSON data with
      | .ok layer => (.ok (), addTo layer s)
      | .error e => (.error e, s))

/-- The whole statement of lines 105 to 110, run when the fetch settles. -/
def loadCyclePaths (net : Network) : MapState → MapState :=
  (loadChain net).catch_ (fun error => consoleError "Error loading the GeoJSON file:" error)

/-- The getter `response.ok` of the fetch API: the status is in 200 to 299.
The script never reads it. -/
def Response.ok (r : Response) : Bool := decide (200 ≤ r.status) && decide (r.status ≤ 299)

/-- The message the `.catch` callback logs for the error it is given. -/
def loadErrorMessage (error : JSError) : String :=
  "Error loading the GeoJSON file:" ++ " " ++ error

/-- A GeoJSON document: one feature, a line of two points. -/
def cyclePathFeature : Data :=
  { text := "\x7b\"type\": \"Feature\", \"properties\": \x7b\x7d, \"geometry\": \x7b\"type\": \"LineString\", \"coordinates\": [[5.7245, 45.1885], [5.7260, 45.1929]]\x7d\x7d",
    renderable := true }

/-- A JSON document that is not GeoJSON: an object holding an error message. -/
def errorObject : Data :=
  { text := "\x7b\"message\": \"quota exceeded\"\x7d", renderable := false }

/-- A network on which the endpoint answers 404 Not Found with a GeoJSON
document as body. -/
def notFoundWithFeature : Network :=
  fun _ => .ok { status := 404, json := .ok cyclePathFeature }

/-- A network on which the endpoint answers 200 OK with a JSON document that
is not GeoJSON. -/
def okNotGeoJSON : Network :=
  fun _ => .ok { status := 200, json := .ok errorObject }

/-- The GeoJSON overlays on the map. -/
def geoJSONOverlays (s : MapState) : List Layer :=
  s.layers.filter (fun l => match l with
    | .geoJSON _ => true
    | _ => false)

/-! ## Events -/

/-- What can happen once the page is loaded. -/
inductive Event
  | zoom (z : ℚ)
  | markerClick (v : Viewport)
  | baseLayerChange (i : BaseInput)
  | fetchSettled (net : Network)

/-- The effect of one event. -/
def step (distance : String) (s : MapState) : Event → MapState
  | .zoom z => zoomTo distance z s
  | .markerClick v => bastilleMarkerClick v distance s
  | .baseLayerChange i => onInputClick i s
  | .fetchSettled net => loadCyclePaths net s

/-- The effect of a sequence of events. -/
def run (distance : String) (evs : List Event) (s : MapState) : MapState :=
  evs.foldl (step distance) s

/-! ## Lemmas -/

/-! ### Tooltips -/

theorem unbindTooltip_frame (s : MapState) :
    (unbindTooltip s).center = s.center ∧ (unbindTooltip s).zoom = s.zoom ∧
    (unbindTooltip s).layers = s.layers ∧ (unbindTooltip s).controls = s.controls ∧
    (unbindTooltip s).console = s.console ∧ (unbindTooltip s).lineTooltip = none := by
  unfold unbindTooltip
  cases h : s.lineTooltip with
  | none => exact ⟨rfl, rfl, rfl, rfl, rfl, h⟩
  | some t => exact ⟨rfl, rfl, rfl, rfl, rfl, rfl⟩

theorem bindTooltip_frame (t : Tooltip) (s : MapState) :
    (bindTooltip t s).center = s.center ∧ (bindTooltip t s).zoom = s.zoom ∧
    (bindTooltip t s).layers = s.layers ∧ (bindTooltip t s).controls = s.controls ∧
    (bindTooltip t s).console = s.console ∧ (bindTooltip t s).lineTooltip = some t := by
  obtain ⟨h1, h2, h3, h4, h5, _⟩ := unbindTooltip_frame s
  unfold bindTooltip
  simp only []
  split <;> split <;> simp [h1, h2, h3, h4, h5]

/-- The handler leaves everything but the line's tooltip as it was. -/
theorem handleZoom_frame (d : String) (s : MapState) :
    (handleZoom d s).center = s.center ∧ (handleZoom d s).zoom = s.zoom ∧
    (handleZoom d s).layers = s.layers ∧ (handleZoom d s).controls = s.controls ∧
    (handleZoom d s).console = s.console := by
  unfold handleZoom
  split
  · obtain ⟨h1, h2, h3, h4, h5, _⟩ := bindTooltip_frame
      { content := "Distance : " ++ d ++ " m", permanent := true, direction := "center" } s
    exact ⟨h1, h2, h3, h4, h5⟩
  · obtain ⟨h1, h2, h3, h4, h5, _⟩ := unbindTooltip_frame s
    exact ⟨h1, h2, h3, h4, h5⟩

theorem handleZoom_layers (d : String) (s : MapState) : (handleZoom d s).layers = s.layers :=
  (handleZoom_frame d s).2.2.1

theorem handleZoom_zoom (d : String) (s : MapState) : (handleZoom d s).zoom = s.zoom :=
  (handleZoom_frame d s).2.1

/-- The tooltip slot after the handler ran. -/
theorem handleZoom_lineTooltip (d : String) (s : MapState) :
    (handleZoom d s).lineTooltip =
      if s.zoom > 14 then
        some { content := "Distance : " ++ d ++ " m", permanent := true, direction := "center" }
      else none := by
  unfold handleZoom getZoom
  split
  · exact (bindTooltip_frame _ s).2.2.2.2.2
  · exact (unbindTooltip_frame s).2.2.2.2.2

theorem labelVisible_none (s : MapState) (h : s.lineTooltip = none) :
    labelVisible s = false := by
  unfold labelVisible
  rw [h]
  rfl

theorem labelVisible_some (s : MapState) (t : Tooltip) (h : s.lineTooltip = some t) :
    labelVisible s = (t.permanent && hasLayer s line) := by
  unfold labelVisible
  rw [h]

theorem hasLayer_congr (s1 s2 : MapState) (l : Layer) (h : s1.layers = s2.layers) :
    hasLayer s1 l = hasLayer s2 l := by
  unfold hasLayer
  rw [h]

theorem labelVisible_unbindTooltip (s : MapState) : labelVisible (unbindTooltip s) = false := by
  exact labelVisible_none _ (unbindTooltip_frame s).2.2.2.2.2

theorem unbindTooltip_tooltipPane (s : MapState) :
    (unbindTooltip s).tooltipPane =
      if labelVisible s then s.tooltipPane - 1 else s.tooltipPane := by
  unfold unbindTooltip
  cases ht : s.lineTooltip with
  | none =>
    have hv : labelVisible s = false := labelVisible_none s ht
    simp [hv]
  | some t => rfl

theorem labelVisible_bindTooltip (t : Tooltip) (s : MapState) :
    labelVisible (bindTooltip t s) = (t.permanent && hasLayer s line) := by
  rw [labelVisible_some _ t (bindTooltip_frame t s).2.2.2.2.2,
    hasLayer_congr _ s line (bindTooltip_frame t s).2.2.1]

theorem bindTooltip_tooltipPane (t : Tooltip) (s : MapState) :
    (bindTooltip t s).tooltipPane =
      (if labelVisible s then s.tooltipPane - 1 else s.tooltipPane) +
        (if (t.permanent && hasLayer s line) = true then 1 else 0) := by
  have hp := unbindTooltip_tooltipPane s
  have hl := hasLayer_congr (unbindTooltip s) s line (unbindTooltip_frame s).2.2.1
  unfold bindTooltip
  simp only []
  cases hv : labelVisible s with
  | true =>
    rw [hv] at hp
    simp only [if_true] at hp ⊢
    rw [hl]
    cases hq : (t.permanent && hasLayer s line) with
    | true => simp [hp]
    | false => simp [hp]
  | false =>
    simp only [Bool.false_eq_true, if_false]
    cases hq : (t.permanent && hasLayer s line) with
    | true => simp
    | false => simp

theorem paneConsistent_unbindTooltip (s : MapState) (h : paneConsistent s) :
    paneConsistent (unbindTooltip s) := by
  unfold paneConsistent at h ⊢
  rw [labelVisible_unbindTooltip, unbindTooltip_tooltipPane, h]
  by_cases hv : labelVisible s = true <;> simp [hv]

theorem paneConsistent_bindTooltip (t : Tooltip) (s : MapState) (h : paneConsistent s) :
    paneConsistent (bindTooltip t s) := by
  unfold paneConsistent at h ⊢
  rw [labelVisible_bindTooltip, bindTooltip_tooltipPane, h]
  by_cases hv : labelVisible s = true <;> simp [hv]

theorem paneConsistent_handleZoom (d : String) (s : MapState) (h : paneConsistent s) :
    paneConsistent (handleZoom d s) := by
  unfold handleZoom
  split
  · exact paneConsistent_bindTooltip _ s h
  · exact paneConsistent_unbindTooltip s h

theorem paneConsistent_initial : paneConsistent initial := by
  unfold paneConsistent
  rw [labelVisible_none initial rfl]
  rfl

theorem paneConsistent_zoomTo (d : String) (z : ℚ) (s : MapState) (h : paneConsistent s) :
    paneConsistent (zoomTo d z s) :=
  paneConsistent_handleZoom d _ h

theorem paneConsistent_zoomSeq (d : String) (zs : List ℚ) (s : MapState)
    (h : paneConsistent s) : paneConsistent (zoomSeq d zs s) := by
  induction zs generalizing s with
  | nil => exact h
  | cons z zs ih => exact ih _ (paneConsistent_zoomTo d z s h)

theorem labelVisible_handleZoom (d : String) (s : MapState) (h : hasLayer s line = true) :
    labelVisible (handleZoom d s) = decide (s.zoom > 14) := by
  unfold handleZoom getZoom
  by_cases hz : s.zoom > 14
  · simp only [hz, if_true, labelVisible_bindTooltip, h]
    simp
  · simp only [hz, if_false, labelVisible_unbindTooltip]
    simp

theorem isSome_handleZoom (d : String) (s : MapState) :
    (handleZoom d s).lineTooltip.isSome = decide (s.zoom > 14) := by
  rw [handleZoom_lineTooltip]
  by_cases hz : s.zoom > 14 <;> simp [hz]

theorem zoomSeq_snoc (d : String) (zs : List ℚ) (z : ℚ) (s : MapState) :
    zoomSeq d (zs ++ [z]) s = zoomTo d z (zoomSeq d zs s) := by
  simp [zoomSeq, List.foldl_append]

theorem zoomSeq_layers (d : String) (zs : List ℚ) (s : MapState) :
    (zoomSeq d zs s).layers = s.layers := by
  induction zs generalizing s with
  | nil => rfl
  | cons z zs ih =>
    show (zoomSeq d zs (zoomTo d z s)).layers = s.layers
    rw [ih]
    exact handleZoom_layers d _

theorem hasLayer_initial_line : hasLayer initial line = true := by
  simp [hasLayer, initial, addControl, addTo, map]

theorem zoomTo_zoom (d : String) (z : ℚ) (s : MapState) : (zoomTo d z s).zoom = z := by
  unfold zoomTo
  rw [handleZoom_zoom]

theorem hasLayer_zoomSeq_line (d : String) (zs : List ℚ) :
    hasLayer (zoomSeq d zs initial) line = true := by
  have h := hasLayer_initial_line
  unfold hasLayer at h ⊢
  rw [zoomSeq_layers]
  exact h

/-- After a zoom interaction on a state where the line is on the map, the
label is bound, and on screen, exactly when the new level exceeds 14. -/
theorem zoomTo_label (d : String) (z : ℚ) (s : MapState) (h : hasLayer s line = true) :
    labelVisible (zoomTo d z s) = decide (z > 14) ∧
      (zoomTo d z s).lineTooltip.isSome = decide (z > 14) := by
  unfold zoomTo
  constructor
  · rw [labelVisible_handleZoom d _ (by simpa [hasLayer] using h)]
  · rw [isSome_handleZoom]

/-! ### The view -/

theorem mathRound_eq (x : ℚ) (z : ℤ) (h1 : (z : ℚ) ≤ x + 1 / 2) (h2 : x + 1 / 2 < z + 1) :
    mathRound x = z := by
  unfold mathRound
  rw [Int.floor_eq_iff.mpr ⟨h1, h2⟩]

theorem mathTrunc_intCast (z : ℤ) : mathTrunc (z : ℚ) = z := by
  unfold mathTrunc
  split <;> simp

theorem draggedAt16_zoom (d : String) : (draggedAt16 d).zoom = 16 :=
  zoomTo_zoom d 16 initial

theorem draggedAt16_center (d : String) : (draggedAt16 d).center = (45.199, 5.725) := rfl

theorem bastilleViewport_project_16 (p : LatLng) :
    bastilleViewport.project p 16 =
      (16777216 * (p.2 / 360 + 1 / 2),
       16777216 * (0.35894350165979183 - 0.003942058787953571 * (p.1 - 45.198601))) := by
  have h : (⌊(16 : ℚ)⌋).toNat = 16 := by
    rw [show (16 : ℚ) = ((16 : ℤ) : ℚ) by norm_num, Int.floor_intCast]
    rfl
  simp only [bastilleViewport, h]
  norm_num

theorem centerPoint_draggedAt16 (d : String) :
    centerPoint bastilleViewport (draggedAt16 d) = (8655412, 6022046) := by
  have hs : bastilleViewport.size = (800, 600) := rfl
  unfold centerPoint pixelCenter
  rw [draggedAt16_zoom, draggedAt16_center, bastilleViewport_project_16, hs]
  rw [mathRound_eq _ 8655012 (by norm_num) (by norm_num),
    mathRound_eq _ 6021746 (by norm_num) (by norm_num)]
  norm_num

theorem panOffset_draggedAt16 (d : String) :
    panOffset bastilleViewport bastilleGPS (draggedAt16 d) = (-19, 27) := by
  unfold panOffset
  rw [centerPoint_draggedAt16, draggedAt16_zoom, bastilleViewport_project_16]
  rw [mathRound_eq _ 8655393 (by norm_num [bastilleGPS]) (by norm_num [bastilleGPS]),
    mathRound_eq _ 6022073 (by norm_num [bastilleGPS]) (by norm_num [bastilleGPS])]
  have h1 : ((8655393 : ℤ) : ℚ) - ((8655412 : ℚ), (6022046 : ℚ)).1 = ((-19 : ℤ) : ℚ) := by
    norm_num
  have h2 : ((6022073 : ℤ) : ℚ) - ((8655412 : ℚ), (6022046 : ℚ)).2 = ((27 : ℤ) : ℚ) := by
    norm_num
  rw [h1, h2, mathTrunc_intCast, mathTrunc_intCast]
  norm_num

theorem tryAnimatedPan_draggedAt16 (d : String) :
    tryAnimatedPan bastilleViewport bastilleGPS (draggedAt16 d) =
      some { draggedAt16 d with
             center := bastilleViewport.unproject (8655393, 6022073) (draggedAt16 d).zoom } := by
  have hs : bastilleViewport.size = (800, 600) := rfl
  have hw : |((-19 : ℚ), (27 : ℚ)).1| ≤ (((800, 600) : Nat × Nat).1 : ℚ) ∧
      |((-19 : ℚ), (27 : ℚ)).2| ≤ (((800, 600) : Nat × Nat).2 : ℚ) := by
    constructor
    · rw [abs_le]; constructor <;> norm_num
    · rw [abs_le]; constructor <;> norm_num
  have hn : ¬ (((-19 : ℚ), (27 : ℚ)).1 = 0 ∧ ((-19 : ℚ), (27 : ℚ)).2 = 0) := by
    intro h
    have h1 := h.1
    norm_num at h1
  have hx : ((8655412 : ℚ), (6022046 : ℚ)).1 + ((-19 : ℚ), (27 : ℚ)).1 = 8655393 := by norm_num
  have hy : ((8655412 : ℚ), (6022046 : ℚ)).2 + ((-19 : ℚ), (27 : ℚ)).2 = 6022073 := by norm_num
  unfold tryAnimatedPan panBy
  rw [panOffset_draggedAt16, centerPoint_draggedAt16, hs, if_pos hw, if_neg hn, hx, hy]

/-- The click at level 16 on the dragged map: the map pans by 19 pixels to the
west and 27 to the south, to the whole pixel the marker is on. -/
theorem bastilleMarkerClick_draggedAt16 (d : String) :
    bastilleMarkerClick bastilleViewport d (draggedAt16 d) =
      { draggedAt16 d with
        center := bastilleViewport.unproject (8655393, 6022073) (draggedAt16 d).zoom } := by
  unfold bastilleMarkerClick setView
  rw [if_pos (draggedAt16_zoom d), tryAnimatedPan_draggedAt16]

theorem bastilleViewport_unproject_16 (pt : Point) :
    bastilleViewport.unproject pt 16 =
      (45.198601 - (pt.2 / 16777216 - 0.35894350165979183) / 0.003942058787953571,
       (pt.1 / 16777216 - 1 / 2) * 360) := by
  have h : (⌊(16 : ℚ)⌋).toNat = 16 := by
    rw [show (16 : ℚ) = ((16 : ℤ) : ℚ) by norm_num, Int.floor_intCast]
    rfl
  simp only [bastilleViewport, h]
  norm_num

/-! ### The loader -/

/-- The error path of the loader: one message on the console, nothing else. -/
theorem geoJSONOverlays_consoleError (m : String) (e : JSError) (s : MapState) :
    geoJSONOverlays (consoleError m e s) = geoJSONOverlays s := rfl

theorem loadCyclePaths_of_rejected (net : Network) (s : MapState) (e : JSError)
    (h : (loadChain net s).1 = .error e) :
    loadCyclePaths net s = consoleError "Error loading the GeoJSON file:" e s := by
  unfold loadCyclePaths Promise.catch_
  unfold loadChain Promise.then_ fetch Promise.settled at h ⊢
  cases hn : net grenobleCyclePaths with
  | error e1 =>
    simp only [hn] at h ⊢
    cases h; rfl
  | ok r =>
    simp only [hn] at h ⊢
    cases hj : r.json with
    | error e2 =>
      simp only [hj] at h ⊢
      cases h; rfl
    | ok d =>
      simp only [hj] at h ⊢
      cases hg : geoJSON d with
      | error e3 =>
        simp only [hg] at h ⊢
        cases h; rfl
      | ok l =>
        simp only [hg] at h
        cases h

theorem loadChain_fetch_rejected (net : Network) (s : MapState) (e : JSError)
    (h : net grenobleCyclePaths = .error e) : (loadChain net s).1 = .error e := by
  simp [loadChain, Promise.then_, fetch, Promise.settled, h]

theorem loadChain_json_rejected (net : Network) (s : MapState) (r : Response) (e : JSError)
    (h : net grenobleCyclePaths = .ok r) (hj : r.json = .error e) :
    (loadChain net s).1 = .error e := by
  simp [loadChain, Promise.then_, fetch, Promise.settled, h, hj]

theorem loadChain_geoJSON_throws (net : Network) (s : MapState) (r : Response) (d : Data)
    (h : net grenobleCyclePaths = .ok r) (hj : r.json = .ok d) (hd : d.renderable = false) :
    (loadChain net s).1 = .error "Error: Invalid GeoJSON object." := by
  simp [loadChain, Promise.then_, fetch, Promise.settled, h, hj, geoJSON, hd]

theorem loadCyclePaths_of_rendered (net : Network) (s : MapState) (r : Response) (d : Data)
    (h : net grenobleCyclePaths = .ok r) (hj : r.json = .ok d) (hd : d.renderable = true) :
    loadCyclePaths net s = addTo (.geoJSON d) s := by
  simp [loadCyclePaths, Promise.catch_, loadChain, Promise.then_, fetch, Promise.settled, h, hj,
    geoJSON, hd]

theorem geoJSONOverlays_addTo (d : Data) (s : MapState) :
    geoJSONOverlays (addTo (.geoJSON d) s) = geoJSONOverlays s ++ [.geoJSON d] := by
  simp [geoJSONOverlays, addTo, List.filter_append]

/-! ### Base layers -/

theorem streets_ne_satellite : streets ≠ satellite := by
  decide

theorem BaseInput.layer_mem (i : BaseInput) : i.layer ∈ baseMaps.map Prod.snd := by
  cases i <;> simp [BaseInput.layer, baseMaps]

theorem BaseInput.layer_injective (i j : BaseInput) (h : i.layer = j.layer) : i = j := by
  cases i <;> cases j <;> first
    | rfl
    | exact absurd h streets_ne_satellite
    | exact absurd h.symm streets_ne_satellite

/-- The inputs left unchecked by a click on `i`: the one other input. -/
theorem unchecked_eq (i : BaseInput) :
    (baseMaps.map Prod.snd).filter (fun l => decide (l ≠ i.layer)) = [i.otherLayer] := by
  have h1 := streets_ne_satellite
  have h2 := streets_ne_satellite.symm
  cases i <;> simp [BaseInput.layer, BaseInput.otherLayer, baseMaps, List.filter, h1, h2]

theorem BaseInput.otherLayer_mem (i : BaseInput) : i.otherLayer ∈ baseMaps.map Prod.snd := by
  cases i <;> simp [BaseInput.otherLayer, baseMaps]

theorem BaseInput.otherLayer_ne (i : BaseInput) : i.otherLayer ≠ i.layer := by
  cases i
  · exact fun e => streets_ne_satellite e.symm
  · exact fun e => streets_ne_satellite e

theorem BaseInput.otherLayer_eq (i j : BaseInput) (h : i ≠ j) : i.otherLayer = j.layer := by
  cases i <;> cases j <;> first
    | rfl
    | exact absurd rfl h

theorem mem_layers_of_active (s : MapState) (j : BaseInput)
    (h : activeBaseLayers s = [j.layer]) (l : Layer) (hl : l ∈ baseMaps.map Prod.snd) :
    l ∈ s.layers ↔ l = j.layer := by
  have hm : l ∈ activeBaseLayers s ↔ l = j.layer := by rw [h]; simp
  rw [← hm]
  unfold activeBaseLayers
  rw [List.mem_filter]
  simp only [decide_eq_true_eq]
  exact ⟨fun h1 => ⟨h1, hl⟩, fun h1 => h1.1⟩

theorem activeBaseLayers_removeLayer (s : MapState) (j : BaseInput)
    (h : activeBaseLayers s = [j.layer]) :
    activeBaseLayers (removeLayer j.layer s) = [] := by
  unfold activeBaseLayers removeLayer at *
  simp only
  rw [List.filter_comm, h]
  simp

/-- A click on an input of the layers control, on a map with one base layer
on, leaves the layer of that input as the one base layer on. -/
theorem activeBaseLayers_onInputClick (s : MapState) (i j : BaseInput)
    (h : activeBaseLayers s = [j.layer]) :
    activeBaseLayers (onInputClick i s) = [i.layer] := by
  unfold onInputClick
  simp only []
  rw [unchecked_eq]
  by_cases hij : i = j
  · subst hij
    have hother : hasLayer s i.otherLayer = false := by
      unfold hasLayer
      rw [decide_eq_false_iff_not, mem_layers_of_active s i h _ i.otherLayer_mem]
      exact i.otherLayer_ne
    have hon : hasLayer s i.layer = true := by
      unfold hasLayer
      rw [decide_eq_true_iff, mem_layers_of_active s i h _ i.layer_mem]
    have hs : addLayer i.layer
        (List.foldl (fun st l => if hasLayer st l = true then removeLayer l st else st) s
          [i.otherLayer]) = s := by
      simp [List.foldl, hother, addLayer, hon]
    rw [hs, h]
  · rw [BaseInput.otherLayer_eq i j hij]
    have hon : hasLayer s j.layer = true := by
      unfold hasLayer
      rw [decide_eq_true_iff, mem_layers_of_active s j h _ j.layer_mem]
    have hoff : hasLayer (removeLayer j.layer s) i.layer = false := by
      unfold hasLayer removeLayer
      rw [decide_eq_false_iff_not]
      simp only [List.mem_filter, not_and]
      intro hm
      rw [mem_layers_of_active s j h _ i.layer_mem] at hm
      exact absurd (BaseInput.layer_injective i j hm) hij
    have hs : addLayer i.layer
        (List.foldl (fun st l => if hasLayer st l = true then removeLayer l st else st) s
          [j.layer]) =
        { removeLayer j.layer s with layers := (removeLayer j.layer s).layers ++ [i.layer] } := by
      simp [List.foldl, hon, addLayer, hoff]
    rw [hs]
    have hrem := activeBaseLayers_removeLayer s j h
    unfold activeBaseLayers at hrem ⊢
    simp only [List.filter_append, hrem]
    simp [List.filter, i.layer_mem]

theorem activeBaseLayers_loadCyclePaths (net : Network) (s : MapState) :
    activeBaseLayers (loadCyclePaths net s) = activeBaseLayers s := by
  cases hc : (loadChain net s).1 with
  | error e => rw [loadCyclePaths_of_rejected net s e hc]; rfl
  | ok u =>
    unfold loadChain Promise.then_ fetch Promise.settled at hc
    unfold loadCyclePaths Promise.catch_ loadChain Promise.then_ fetch Promise.settled
    cases hn : net grenobleCyclePaths with
    | error e1 => simp only [hn] at hc; cases hc
    | ok r =>
      simp only [hn] at hc ⊢
      cases hj : r.json with
      | error e2 => simp only [hj] at hc; cases hc
      | ok d =>
        simp only [hj] at hc ⊢
        cases hg : geoJSON d with
        | error e3 => simp only [hg] at hc; cases hc
        | ok l =>
          have hl : l = .geoJSON d := by
            unfold geoJSON at hg
            split at hg
            · cases hg; rfl
            · cases hg
          subst hl
          simp [activeBaseLayers, addTo, List.filter_append, baseMaps, streets, satellite]

theorem setView_layers (v : Viewport) (d : String) (c : LatLng) (z : ℚ) (s : MapState) :
    (setView v d c z s).layers = s.layers := by
  unfold setView tryAnimatedPan panBy
  split
  · split
    · rename_i s1 h
      split at h
      · cases h
        split <;> rfl
      · cases h
    · rfl
  · split
    · rfl
    · split <;> rw [handleZoom_layers]

theorem activeBaseLayers_setView (v : Viewport) (d : String) (c : LatLng) (z : ℚ)
    (s : MapState) : activeBaseLayers (setView v d c z s) = activeBaseLayers s := by
  unfold activeBaseLayers
  rw [setView_layers]

/-- Every event keeps one base layer on. -/
theorem activeBaseLayers_step (d : String) (s : MapState) (ev : Event)
    (h : ∃ j : BaseInput, activeBaseLayers s = [j.layer]) :
    ∃ j : BaseInput, activeBaseLayers (step d s ev) = [j.layer] := by
  obtain ⟨j, hj⟩ := h
  cases ev with
  | zoom z =>
    refine ⟨j, ?_⟩
    show activeBaseLayers (handleZoom d _) = _
    unfold activeBaseLayers at hj ⊢
    rw [handleZoom_layers]; exact hj
  | markerClick v =>
    refine ⟨j, ?_⟩
    show activeBaseLayers (setView v d _ _ s) = _
    rw [activeBaseLayers_setView]; exact hj
  | baseLayerChange i => exact ⟨i, activeBaseLayers_onInputClick s i j hj⟩
  | fetchSettled net =>
    refine ⟨j, ?_⟩
    show activeBaseLayers (loadCyclePaths net s) = _
    rw [activeBaseLayers_loadCyclePaths]; exact hj

theorem activeBaseLayers_initial : activeBaseLayers initial = [streets] := by
  simp [activeBaseLayers, initial, addControl, addTo, map, baseMaps, bastilleMarker, jdv, line,
    streets, satellite, List.filter]

theorem activeBaseLayers_run (d : String) (evs : List Event) (s : MapState)
    (h : ∃ j : BaseInput, activeBaseLayers s = [j.layer]) :
    ∃ j : BaseInput, activeBaseLayers (run d evs s) = [j.layer] := by
  induction evs generalizing s with
  | nil => exact h
  | cons ev evs ih => exact ih (step d s ev) (activeBaseLayers_step d s ev h)

/-! ## The claims -/

/-- C1, label-visibility invariant: in the state reached from the initial state
(zoom 13, no tooltip bound) by any sequence of zoom changes, each followed by
`handleZoom`, the line's tooltip is bound, and on screen, if and only if the
current zoom exceeds 14; a last change to exactly 14 leaves the label hidden
and a last change to any level above 14, such as 14.01, leaves it shown. -/
theorem C1_label_visible_iff_zoom_gt_14 (distance : String) :
    (initial.zoom = 13 ∧ initial.lineTooltip = none) ∧
    (∀ zs : List ℚ,
      ((zoomSeq distance zs initial).lineTooltip.isSome = true ↔
        (zoomSeq distance zs initial).zoom > 14) ∧
      (labelVisible (zoomSeq distance zs initial) = true ↔
        (zoomSeq distance zs initial).zoom > 14)) ∧
    (∀ zs : List ℚ, labelVisible (zoomSeq distance (zs ++ [14]) initial) = false ∧
      (zoomSeq distance (zs ++ [14]) initial).lineTooltip = none) ∧
    (∀ (zs : List ℚ) (z : ℚ), z > 14 →
      labelVisible (zoomSeq distance (zs ++ [z]) initial) = true) ∧
    (∀ zs : List ℚ, labelVisible (zoomSeq distance (zs ++ [14.01]) initial) = true) := by
  have key : ∀ (zs : List ℚ) (z : ℚ),
      labelVisible (zoomSeq distance (zs ++ [z]) initial) = decide (z > 14) ∧
      (zoomSeq distance (zs ++ [z]) initial).lineTooltip.isSome = decide (z > 14) ∧
      (zoomSeq distance (zs ++ [z]) initial).zoom = z := by
    intro zs z
    rw [zoomSeq_snoc]
    have h := zoomTo_label distance z _ (hasLayer_zoomSeq_line distance zs)
    exact ⟨h.1, h.2, zoomTo_zoom _ _ _⟩
  refine ⟨⟨rfl, rfl⟩, ?_, ?_, ?_, ?_⟩
  · intro zs
    rcases List.eq_nil_or_concat zs with rfl | ⟨ys, y, rfl⟩
    · have h13 : ¬ ((13 : ℚ) > 14) := by norm_num
      have hz : (zoomSeq distance [] initial).zoom = 13 := rfl
      have ht : (zoomSeq distance [] initial).lineTooltip = none := rfl
      have hv : labelVisible (zoomSeq distance [] initial) = false := by
        simp [labelVisible, ht]
      rw [hz, ht, hv]
      simp [h13]
    · rw [List.concat_eq_append]
      obtain ⟨h1, h2, h3⟩ := key ys y
      rw [h1, h2, h3]
      simp
  · intro zs
    obtain ⟨h1, h2, _⟩ := key zs 14
    have h14 : ¬ ((14 : ℚ) > 14) := by norm_num
    constructor
    · rw [h1]; simp
    · have : (zoomSeq distance (zs ++ [14]) initial).lineTooltip.isSome = false := by
        rw [h2]; simp
      simpa using this
  · intro zs z hz
    obtain ⟨h1, _, _⟩ := key zs z
    rw [h1]; simpa using hz
  · intro zs
    obtain ⟨h1, _, _⟩ := key zs 14.01
    rw [h1]
    have : (14.01 : ℚ) > 14 := by norm_num
    simpa using this

/-- A run of C1: zooming to 15, to 14 and then to 14.01 ends with the label on
screen. -/
theorem C1_label_visible_iff_zoom_gt_14_witness :
    (14.01 : ℚ) > 14 ∧ labelVisible (zoomSeq "d" ([15, 14] ++ [14.01]) initial) = true :=
  ⟨by norm_num,
    (C1_label_visible_iff_zoom_gt_14 "d").2.2.2.1 [15, 14] 14.01 (by norm_num)⟩


/-- C2 as stated fails: the map is at level 16, dragged to (45.199, 5.725), on
a screen of 800 by 600 pixels; the click leaves the level at 16 and pans the
map by whole pixels, to the pixel the marker is on: the centre reached has
longitude 5.7245850563..., not 5.724592, and a latitude just below 45.198596,
not 45.198601. -/
theorem C2_click_at_level_16_misses_marker :
    (draggedAt16 "d").zoom = 16 ∧
    (draggedAt16 "d").center = (45.199, 5.725) ∧
    (bastilleMarkerClick bastilleViewport "d" (draggedAt16 "d")).zoom = 16 ∧
    (bastilleMarkerClick bastilleViewport "d" (draggedAt16 "d")).center.2 =
      12005325 / 2097152 ∧
    45.198595 < (bastilleMarkerClick bastilleViewport "d" (draggedAt16 "d")).center.1 ∧
    (bastilleMarkerClick bastilleViewport "d" (draggedAt16 "d")).center.1 < 45.198597 ∧
    (bastilleMarkerClick bastilleViewport "d" (draggedAt16 "d")).center ≠ bastilleGPS := by
  have hc : (bastilleMarkerClick bastilleViewport "d" (draggedAt16 "d")).center =
      bastilleViewport.unproject (8655393, 6022073) 16 := by
    rw [bastilleMarkerClick_draggedAt16, draggedAt16_zoom]
  have hz : (bastilleMarkerClick bastilleViewport "d" (draggedAt16 "d")).zoom = 16 := by
    rw [bastilleMarkerClick_draggedAt16]
    exact draggedAt16_zoom "d"
  rw [hc, bastilleViewport_unproject_16]
  refine ⟨draggedAt16_zoom "d", rfl, hz, ?_, ?_, ?_, ?_⟩
  · norm_num
  · norm_num
  · norm_num
  · intro h
    have h2 := congrArg Prod.snd h
    norm_num [bastilleGPS] at h2

/-- C2, amended: the click handler calls `map.setView(bastilleGPS, 16)`, with
`bastilleGPS` equal to (45.198601, 5.724592).  From every state whose zoom is
not 16, with no zoom animation running, it leaves the zoom equal to 16; the
centre is then equal to `bastilleGPS` when the view is reset or the map pane
is at its origin, and is the point read back from the pixel in the middle of
the map when the change is animated on a map that was moved.  While a zoom
animation is running from such a state the call changes nothing.  From every
state whose zoom is 16 already the zoom stays 16 and the centre is
`bastilleGPS` exactly when the marker is more than one screen away;
otherwise the map is panned by a whole number of pixels and the centre is the
point that pan reaches (the centre of before when the number is zero). -/
theorem C2_marker_click_view (v : Viewport) (distance : String) (s : MapState) :
    bastilleGPS = (45.198601, 5.724592) ∧
    (s.zoom ≠ 16 → v.animatingZoom = false →
      (bastilleMarkerClick v distance s).zoom = 16 ∧
      (bastilleMarkerClick v distance s).center =
        if (v.zoomAnimation && v.paneMoved) = true then
          v.unproject (pixelCenter v bastilleGPS 16) 16
        else bastilleGPS) ∧
    (s.zoom ≠ 16 → v.animatingZoom = true → bastilleMarkerClick v distance s = s) ∧
    (s.zoom = 16 →
      (bastilleMarkerClick v distance s).zoom = 16 ∧
      (bastilleMarkerClick v distance s).center =
        if |(panOffset v bastilleGPS s).1| ≤ (v.size.1 : ℚ) ∧
            |(panOffset v bastilleGPS s).2| ≤ (v.size.2 : ℚ) then
          if (panOffset v bastilleGPS s).1 = 0 ∧ (panOffset v bastilleGPS s).2 = 0 then s.center
          else
            v.unproject ((centerPoint v s).1 + (panOffset v bastilleGPS s).1,
              (centerPoint v s).2 + (panOffset v bastilleGPS s).2) 16
        else bastilleGPS) := by
  refine ⟨rfl, ?_, ?_, ?_⟩
  · intro hz ha
    unfold bastilleMarkerClick setView
    rw [if_neg hz, ha]
    simp only [Bool.false_eq_true, if_false]
    by_cases hm : (v.zoomAnimation && v.paneMoved) = true
    · rw [if_pos hm, if_pos hm]
      exact ⟨handleZoom_zoom distance _, (handleZoom_frame distance _).1⟩
    · rw [if_neg hm, if_neg hm]
      exact ⟨handleZoom_zoom distance _, (handleZoom_frame distance _).1⟩
  · intro hz ha
    unfold bastilleMarkerClick setView
    rw [if_neg hz, ha]
    simp
  · intro hz
    unfold bastilleMarkerClick setView tryAnimatedPan panBy
    rw [if_pos hz]
    by_cases hw : |(panOffset v bastilleGPS s).1| ≤ (v.size.1 : ℚ) ∧
        |(panOffset v bastilleGPS s).2| ≤ (v.size.2 : ℚ)
    · rw [if_pos hw, if_pos hw]
      by_cases h0 : (panOffset v bastilleGPS s).1 = 0 ∧ (panOffset v bastilleGPS s).2 = 0
      · rw [if_pos h0, if_pos h0]
        exact ⟨hz, rfl⟩
      · rw [if_neg h0, if_neg h0]
        exact ⟨hz, by rw [hz]⟩
    · rw [if_neg hw, if_neg hw]
      exact ⟨rfl, rfl⟩

/-- The click on the map as loaded, at level 13 with its pane at the origin and
no animation running: the view ends centred on the marker coordinate at
level 16. -/
theorem C2_marker_click_view_witness :
    initial.zoom ≠ 16 ∧
    (bastilleMarkerClick { bastilleViewport with paneMoved := false } "d" initial).zoom = 16 ∧
    (bastilleMarkerClick { bastilleViewport with paneMoved := false } "d" initial).center =
      bastilleGPS :=
  have hz : initial.zoom ≠ 16 := by
    show (13 : ℚ) ≠ 16
    norm_num
  ⟨hz, (C2_marker_click_view { bastilleViewport with paneMoved := false } "d" initial).2.1 hz rfl⟩

/-- C6, idempotence of `handleZoom`: on every map state, running the handler
twice gives the state one run gives; and after any sequence of zoom changes
from the load state, each followed by the handler, however often they cross
14, the line carries at most one tooltip: its slot holds at most one and at
most one tooltip is open on the map. -/
theorem C6_handleZoom_idempotent (distance : String) :
    (∀ s : MapState, handleZoom distance (handleZoom distance s) = handleZoom distance s) ∧
    (∀ zs : List ℚ, (zoomSeq distance zs initial).tooltipPane ≤ 1 ∧
      (lineTooltips (zoomSeq distance zs initial)).length ≤ 1) := by
  constructor
  · intro s
    obtain ⟨c, z, ls, cs, lt, tp, co⟩ := s
    by_cases hz : z > 14
    · by_cases hl : line ∈ ls
      · cases lt with
        | none =>
          simp [handleZoom, bindTooltip, unbindTooltip, labelVisible, hasLayer, getZoom, hz, hl]
        | some t =>
          cases hp : t.permanent <;>
            simp [handleZoom, bindTooltip, unbindTooltip, labelVisible, hasLayer, getZoom, hz, hl,
              hp]
      · cases lt <;>
          simp [handleZoom, bindTooltip, unbindTooltip, labelVisible, hasLayer, getZoom, hz, hl]
    · cases lt <;> simp [handleZoom, unbindTooltip, getZoom, hz]
  · intro zs
    constructor
    · have h := paneConsistent_zoomSeq distance zs initial paneConsistent_initial
      unfold paneConsistent at h
      rw [h]
      split <;> decide
    · unfold lineTooltips
      cases (zoomSeq distance zs initial).lineTooltip <;> simp

/-- C7, label scenario and text: at load (zoom 13) the label is hidden; once
the zoom is 15 and the handler has run, it is shown, permanent, and reads
"Distance : " followed by the constant `distance` followed by " m"; once the
zoom is then 10 and the handler has run, it is hidden again.  Whenever the
handler leaves a tooltip bound, on any state, it is that same tooltip. -/
theorem C7_label_scenario (distance : String) :
    (initial.zoom = 13 ∧ labelVisible initial = false ∧ initial.lineTooltip = none) ∧
    (labelVisible (zoomTo distance 15 initial) = true ∧
      (zoomTo distance 15 initial).lineTooltip =
        some { content := "Distance : " ++ distance ++ " m", permanent := true,
               direction := "center" }) ∧
    (labelVisible (zoomTo distance 10 (zoomTo distance 15 initial)) = false ∧
      (zoomTo distance 10 (zoomTo distance 15 initial)).lineTooltip = none) ∧
    (∀ (s : MapState) (t : Tooltip), (handleZoom distance s).lineTooltip = some t →
      t = { content := "Distance : " ++ distance ++ " m", permanent := true,
            direction := "center" }) := by
  have h15 : (15 : ℚ) > 14 := by norm_num
  have h10 : ¬ ((10 : ℚ) > 14) := by norm_num
  have hl15 : hasLayer (zoomTo distance 15 initial) line = true := by
    unfold zoomTo
    rw [hasLayer_congr _ _ line (handleZoom_layers distance _)]
    exact hasLayer_initial_line
  refine ⟨⟨rfl, labelVisible_none _ rfl, rfl⟩, ⟨?_, ?_⟩, ⟨?_, ?_⟩, ?_⟩
  · rw [(zoomTo_label distance 15 initial hasLayer_initial_line).1]
    simpa using h15
  · unfold zoomTo
    rw [handleZoom_lineTooltip]
    simp [h15]
  · rw [(zoomTo_label distance 10 _ hl15).1]
    simpa using h10
  · unfold zoomTo
    rw [handleZoom_lineTooltip]
    simp [h10]
  · intro s t h
    rw [handleZoom_lineTooltip] at h
    by_cases hz : s.zoom > 14
    · simp only [hz, if_true, Option.some.injEq] at h
      exact h.symm
    · simp [hz] at h

/-- The tooltip shown at zoom 15 after load, with "d" for the distance, has the
text "Distance : d m". -/
theorem C7_label_scenario_witness :
    (handleZoom "d" { initial with zoom := 15 }).lineTooltip =
        some { content := "Distance : d m", permanent := true, direction := "center" } ∧
    ({ content := "Distance : d m", permanent := true, direction := "center" } : Tooltip) =
      { content := "Distance : " ++ "d" ++ " m", permanent := true, direction := "center" } :=
  have h : (handleZoom "d" { initial with zoom := 15 }).lineTooltip =
      some { content := "Distance : d m", permanent := true, direction := "center" } := by
    have h15 : (15 : ℚ) > 14 := by norm_num
    rw [handleZoom_lineTooltip]
    simp only [h15, if_true]
    rfl
  ⟨h, (C7_label_scenario "d").2.2.2 { initial with zoom := 15 } _ h⟩

/-- C8, base-layer exclusivity: at load streets is the one base layer on the
map; in every state reached from there by any sequence of base-layer toggles,
marker clicks, zoom events and fetch completions, exactly one of the two base
layers, streets or satellite, is on the map; and a toggle to a layer in such a
state leaves that layer on and the other one off. -/
theorem C8_one_base_layer (distance : String) :
    streets ≠ satellite ∧
    activeBaseLayers initial = [streets] ∧
    (∀ evs : List Event,
      activeBaseLayers (run distance evs initial) = [streets] ∨
      activeBaseLayers (run distance evs initial) = [satellite]) ∧
    (∀ (evs : List Event) (i : BaseInput),
      activeBaseLayers (run distance (evs ++ [.baseLayerChange i]) initial) = [i.layer] ∧
      hasLayer (run distance (evs ++ [.baseLayerChange i]) initial) i.layer = true ∧
      hasLayer (run distance (evs ++ [.baseLayerChange i]) initial) i.otherLayer = false) := by
  have hinit : ∃ j : BaseInput, activeBaseLayers initial = [j.layer] :=
    ⟨.streetsOSM, activeBaseLayers_initial⟩
  refine ⟨streets_ne_satellite, activeBaseLayers_initial, ?_, ?_⟩
  · intro evs
    obtain ⟨j, hj⟩ := activeBaseLayers_run distance evs initial hinit
    cases j
    · exact Or.inl hj
    · exact Or.inr hj
  · intro evs i
    obtain ⟨j, hj⟩ := activeBaseLayers_run distance evs initial hinit
    have hrun : run distance (evs ++ [.baseLayerChange i]) initial =
        onInputClick i (run distance evs initial) := by
      simp [run, List.foldl_append, step]
    have hact := activeBaseLayers_onInputClick _ i j hj
    rw [hrun]
    refine ⟨hact, ?_, ?_⟩
    · unfold hasLayer
      rw [decide_eq_true_iff, mem_layers_of_active _ i hact _ i.layer_mem]
    · unfold hasLayer
      rw [decide_eq_false_iff_not, mem_layers_of_active _ i hact _ i.otherLayer_mem]
      exact i.otherLayer_ne

/-- C10, frame of `handleZoom`: on every map state the handler changes the
line's tooltip (its slot and whether it is open on the map) and nothing else;
the centre, the zoom, the layers on the map (base layer, marker, polygon, line
with their popups, fetched overlays), the controls and the console are as
before. -/
theorem C10_handleZoom_frame (distance : String) (s : MapState) :
    (handleZoom distance s).center = s.center ∧
    (handleZoom distance s).zoom = s.zoom ∧
    (handleZoom distance s).layers = s.layers ∧
    (handleZoom distance s).controls = s.controls ∧
    (handleZoom distance s).console = s.console ∧
    activeBaseLayers (handleZoom distance s) = activeBaseLayers s ∧
    geoJSONOverlays (handleZoom distance s) = geoJSONOverlays s ∧
    handleZoom distance s =
      { s with lineTooltip := (handleZoom distance s).lineTooltip,
               tooltipPane := (handleZoom distance s).tooltipPane } := by
  obtain ⟨h1, h2, h3, h4, h5⟩ := handleZoom_frame distance s
  refine ⟨h1, h2, h3, h4, h5, ?_, ?_, ?_⟩
  · unfold activeBaseLayers
    rw [h3]
  · unfold geoJSONOverlays
    rw [h3]
  · cases hs : handleZoom distance s with
    | mk c z ls cs lt tp co =>
      rw [hs] at h1 h2 h3 h4 h5
      simp only at h1 h2 h3 h4 h5
      subst h1 h2 h3 h4 h5
      rfl

/-- C3 as stated fails: the endpoint answers with the non-success status 404
and a body that parses and renders; the chain does not take the error path:
nothing is logged and a GeoJSON overlay is added to the map. -/
theorem C3_error_status_not_caught :
    notFoundWithFeature grenobleCyclePaths = .ok { status := 404, json := .ok cyclePathFeature } ∧
    Response.ok { status := 404, json := .ok cyclePathFeature } = false ∧
    (loadCyclePaths notFoundWithFeature initial).console = [] ∧
    geoJSONOverlays initial = [] ∧
    geoJSONOverlays (loadCyclePaths notFoundWithFeature initial) = [.geoJSON cyclePathFeature] := by
  have h := loadCyclePaths_of_rendered notFoundWithFeature initial
    { status := 404, json := .ok cyclePathFeature } cyclePathFeature rfl rfl rfl
  refine ⟨rfl, by decide, ?_, ?_, ?_⟩
  · rw [h]; rfl
  · simp [geoJSONOverlays, initial, addControl, addTo, map, bastilleMarker, jdv, line, streets]
  · rw [h, geoJSONOverlays_addTo]
    simp [geoJSONOverlays, initial, addControl, addTo, map, bastilleMarker, jdv, line, streets]

/-- C3, amended: when the fetch is rejected (network failure), or a response of
whatever HTTP status has a malformed body (`response.json()` is rejected, or
the parsed document makes `L.geoJSON` throw), the chain takes its one caught
error path: the diagnostic message is logged with the error, once, nothing
else changes, and no GeoJSON overlay is added.  The HTTP status plays no part. -/
theorem C3_failures_take_error_path (net : Network) (s : MapState) :
    (∀ e : JSError, net grenobleCyclePaths = .error e →
      loadCyclePaths net s = { s with console := s.console ++ [loadErrorMessage e] }) ∧
    (∀ (r : Response) (e : JSError), net grenobleCyclePaths = .ok r → r.json = .error e →
      loadCyclePaths net s = { s with console := s.console ++ [loadErrorMessage e] }) ∧
    (∀ (r : Response) (d : Data), net grenobleCyclePaths = .ok r → r.json = .ok d →
      geoJSON d = .error "Error: Invalid GeoJSON object." →
      loadCyclePaths net s =
        { s with console := s.console ++ [loadErrorMessage "Error: Invalid GeoJSON object."] }) ∧
    (∀ e : JSError,
      geoJSONOverlays { s with console := s.console ++ [loadErrorMessage e] } =
        geoJSONOverlays s) := by
  refine ⟨?_, ?_, ?_, fun _ => rfl⟩
  · intro e h
    rw [loadCyclePaths_of_rejected net s e (loadChain_fetch_rejected net s e h)]
    rfl
  · intro r e h hj
    rw [loadCyclePaths_of_rejected net s e (loadChain_json_rejected net s r e h hj)]
    rfl
  · intro r d h hj hg
    have hd : d.renderable = false := by
      unfold geoJSON at hg
      cases hr : d.renderable with
      | false => rfl
      | true => simp [hr] at hg
    rw [loadCyclePaths_of_rejected net s _ (loadChain_geoJSON_throws net s r d h hj hd)]
    rfl

/-- A network failure at load: the console holds the one diagnostic message and
the map is otherwise as it was. -/
theorem C3_failures_take_error_path_witness :
    (fun _ => Except.error "TypeError: Failed to fetch" : Network) grenobleCyclePaths =
        .error "TypeError: Failed to fetch" ∧
    loadCyclePaths (fun _ => Except.error "TypeError: Failed to fetch") initial =
      { initial with
        console := initial.console ++ [loadErrorMessage "TypeError: Failed to fetch"] } :=
  ⟨rfl, (C3_failures_take_error_path (fun _ => Except.error "TypeError: Failed to fetch")
    initial).1 "TypeError: Failed to fetch" rfl⟩

/-- C4 as stated fails: the endpoint answers 200 OK with a body that parses,
to a JSON object that is not GeoJSON; `L.geoJSON` throws on it, the error path
is taken (one message is logged) and no overlay is added. -/
theorem C4_parsed_body_not_rendered :
    okNotGeoJSON grenobleCyclePaths = .ok { status := 200, json := .ok errorObject } ∧
    Response.ok { status := 200, json := .ok errorObject } = true ∧
    (loadCyclePaths okNotGeoJSON initial).console =
      [loadErrorMessage "Error: Invalid GeoJSON object."] ∧
    geoJSONOverlays (loadCyclePaths okNotGeoJSON initial) = geoJSONOverlays initial ∧
    (geoJSONOverlays (loadCyclePaths okNotGeoJSON initial)).length ≠
      (geoJSONOverlays initial).length + 1 := by
  have h := loadCyclePaths_of_rejected okNotGeoJSON initial _
    (loadChain_geoJSON_throws okNotGeoJSON initial _ _ rfl rfl rfl)
  refine ⟨rfl, by decide, ?_, ?_, ?_⟩
  · rw [h]; rfl
  · rw [h]; rfl
  · rw [h, geoJSONOverlays_consoleError]
    exact Nat.ne_of_lt (Nat.lt_succ_self _)

/-- C4, amended: for every response, whatever its status, whose body parses to
a document `d` from which `L.geoJSON` builds a layer, the chain adds that one
layer to the map and does nothing else: the GeoJSON overlays on the map are
those of before followed by the overlay built from `d`, their number grows by
exactly 1, and the error path is not taken (the console is as before). -/
theorem C4_rendered_body_adds_one_overlay (net : Network) (s : MapState) (r : Response)
    (d : Data) (l : Layer) (h : net grenobleCyclePaths = .ok r) (hj : r.json = .ok d)
    (hg : geoJSON d = .ok l) :
    l = .geoJSON d ∧
    loadChain net s = (.ok (), addTo l s) ∧
    loadCyclePaths net s = { s with layers := s.layers ++ [l] } ∧
    geoJSONOverlays (loadCyclePaths net s) = geoJSONOverlays s ++ [l] ∧
    (geoJSONOverlays (loadCyclePaths net s)).length = (geoJSONOverlays s).length + 1 ∧
    (loadCyclePaths net s).console = s.console := by
  have hd : d.renderable = true ∧ l = .geoJSON d := by
    unfold geoJSON at hg
    cases hr : d.renderable with
    | false => simp [hr] at hg
    | true =>
      simp [hr] at hg
      exact ⟨rfl, hg.symm⟩
  obtain ⟨hd, rfl⟩ := hd
  have hl := loadCyclePaths_of_rendered net s r d h hj hd
  refine ⟨rfl, ?_, ?_, ?_, ?_, ?_⟩
  · simp [loadChain, Promise.then_, fetch, Promise.settled, h, hj, geoJSON, hd]
  · rw [hl]; rfl
  · rw [hl, geoJSONOverlays_addTo]
  · rw [hl, geoJSONOverlays_addTo]; simp
  · rw [hl]; rfl

/-- A 200 response whose body is a GeoJSON feature: the overlay built from it is
the one GeoJSON overlay on the map after the load. -/
theorem C4_rendered_body_adds_one_overlay_witness :
    geoJSONOverlays
        (loadCyclePaths (fun _ => .ok { status := 200, json := .ok cyclePathFeature }) initial) =
      geoJSONOverlays initial ++ [.geoJSON cyclePathFeature] :=
  (C4_rendered_body_adds_one_overlay
    (fun _ => .ok { status := 200, json := .ok cyclePathFeature })
    initial { status := 200, json := .ok cyclePathFeature } cyclePathFeature _ rfl rfl rfl).2.2.2.1

/-- C5, failed load is atomic: whenever the chain ends in its catch branch, as
it does when the fetch is rejected and when `response.json()` is rejected, the
state after the load is the state before with one error message appended to the
console: no overlay is added and the centre, the zoom, the layers (base layer,
marker, polygon, line), the controls and the line's tooltip are unchanged. -/
theorem C5_failed_load_is_atomic (net : Network) (s : MapState) :
    (∀ e : JSError, (loadChain net s).1 = .error e →
      loadCyclePaths net s = { s with console := s.console ++ [loadErrorMessage e] } ∧
      (loadCyclePaths net s).center = s.center ∧
      (loadCyclePaths net s).zoom = s.zoom ∧
      (loadCyclePaths net s).layers = s.layers ∧
      (loadCyclePaths net s).controls = s.controls ∧
      (loadCyclePaths net s).lineTooltip = s.lineTooltip ∧
      activeBaseLayers (loadCyclePaths net s) = activeBaseLayers s ∧
      geoJSONOverlays (loadCyclePaths net s) = geoJSONOverlays s ∧
      (loadCyclePaths net s).console.length = s.console.length + 1) ∧
    (∀ e : JSError, net grenobleCyclePaths = .error e → (loadChain net s).1 = .error e) ∧
    (∀ (r : Response) (e : JSError), net grenobleCyclePaths = .ok r → r.json = .error e →
      (loadChain net s).1 = .error e) := by
  refine ⟨?_, ?_, ?_⟩
  · intro e h
    rw [loadCyclePaths_of_rejected net s e h]
    refine ⟨rfl, rfl, rfl, rfl, rfl, rfl, rfl, rfl, ?_⟩
    simp [consoleError]
  · intro e h
    exact loadChain_fetch_rejected net s e h
  · intro r e h hj
    exact loadChain_json_rejected net s r e h hj

/-- A response whose body is not JSON, at load: the chain is rejected with the
parse error and the load leaves the map as it was but for the logged message. -/
theorem C5_failed_load_is_atomic_witness :
    (loadChain (fun _ => .ok { status := 200, json := .error "SyntaxError: Unexpected token" })
        initial).1 = .error "SyntaxError: Unexpected token" ∧
    loadCyclePaths (fun _ => .ok { status := 200, json := .error "SyntaxError: Unexpected token" })
        initial =
      { initial with
        console := initial.console ++ [loadErrorMessage "SyntaxError: Unexpected token"] } :=
  ⟨rfl, ((C5_failed_load_is_atomic
    (fun _ => .ok { status := 200, json := .error "SyntaxError: Unexpected token" })
    initial).1 "SyntaxError: Unexpected token" rfl).1⟩

end Script
